import Mathlib

/- Shallow embedding of the multipart upload coordinator of the vibe-drop
repository (Go).  Embedded sources:
  internal/fileservice/handlers/files.go       (planner, handlers)
  internal/fileservice/storage/s3client.go     (S3 wrapper and DynamoDB
                                                client, including the
                                                FileMetadata / FileChunk
                                                records and their table
                                                operations)
The blob store (AWS S3) and metadata store (AWS DynamoDB) are external
collaborators; they are modelled by explicit states whose operations follow
the documented semantics of exactly the calls the code makes (PutItem and
UpdateItem without condition expressions, GetItem, DeleteItem, Query by
partition key, CreateMultipartUpload / CompleteMultipartUpload /
DeleteObject).  Nondeterministic inputs (fresh UUIDs, store-assigned upload
ids, clock readings) are passed to the model as explicit arguments. -/

namespace VibeDrop

/-! ## Planner arithmetic (files.go 60-137)

Sizes are Go int64 values.  They are embedded as Int with two's-complement
wraparound applied wherever the Go code performs int64 arithmetic, so the
model is faithful on the whole int64 range. -/

def pow63 : Int := 9223372036854775808

def pow64 : Int := 18446744073709551616

/-- Two's-complement reduction of an integer into the int64 range
[-2^63, 2^63), as Go int64 arithmetic produces on overflow. -/
def wrap64 (x : Int) : Int := (x + pow63) % pow64 - pow63

/-- Go int64 addition (wraps on overflow). -/
def wadd (a b : Int) : Int := wrap64 (a + b)

/-- Go int64 subtraction (wraps on overflow). -/
def wsub (a b : Int) : Int := wrap64 (a - b)

/-- Go int64 multiplication (wraps on overflow). -/
def wmul (a b : Int) : Int := wrap64 (a * b)

/-- multipartThreshold (files.go 61): 5 GiB in bytes. -/
def multipartThreshold : Int := 5 * 1024 * 1024 * 1024

/-- chunkSize (files.go 79): 5 GiB per chunk. -/
def chunkSizeConst : Int := 5 * 1024 * 1024 * 1024

/-- shouldUseMultipart (files.go 60-63): true iff a size was declared and it
is at least the multipart threshold. -/
def shouldUseMultipart : Option Int → Bool
  | none => false
  | some s => decide (multipartThreshold ≤ s)

/-- totalChunks (files.go 80): int((*req.Size + chunkSize - 1) / chunkSize).
The sum is computed with wrapping int64 additions; Go integer division
truncates toward zero (Int.tdiv).  The quotient of an int64 by 5 GiB always
fits int64 again (the only overflowing quotient, MinInt64 / -1, cannot
arise), so no wrap is applied to the division result; the conversion to int
is the identity on 64-bit platforms. -/
def totalChunksGo (size : Int) : Int :=
  Int.tdiv (wsub (wadd size chunkSizeConst) 1) chunkSizeConst

/-- currentChunkSize for 0-based loop index i (files.go 111-115): chunkSize,
except for the last index, which gets totalSize - int64(i)*chunkSize
computed with wrapping int64 arithmetic. -/
def chunkSizeAt (totalSize tc i : Int) : Int :=
  if i = tc - 1 then wsub totalSize (wmul i chunkSizeConst) else chunkSizeConst

/-! ## Data model (s3client.go DynamoDB section) -/

/-- storage.FileMetadata (s3client.go 188-203).  DynamoDB attributes marked
omitempty are Options. -/
structure FileMetadata where
  fileID : String
  filename : String
  totalSize : Int
  contentType : String
  status : String
  uploadType : String
  uploadedAt : String
  userID : String
  s3Key : String
  s3UploadID : Option String
  chunkSize : Option Int
  totalChunks : Option Int
  completedAt : Option String
deriving DecidableEq, Repr

/-- storage.FileChunk (s3client.go 340-348). -/
structure FileChunk where
  fileID : String
  chunkNumber : Int
  size : Int
  etag : String
  status : String
  uploadedAt : String
  s3PartNumber : Int
deriving DecidableEq, Repr

/-- State of the two DynamoDB tables the coordinator uses: vibe-drop-files
(keyed by fileID) and vibe-drop-chunks (keyed by (fileID, chunkNumber)).
Tables are modelled as lists of items; every operation below follows the
semantics of the DynamoDB call the Go code makes. -/
structure DynamoState where
  files : List FileMetadata
  chunks : List FileChunk
deriving DecidableEq, Repr

/-- Key predicate of the vibe-drop-files table. -/
def fileKeyMatches (fid : String) (m : FileMetadata) : Bool :=
  m.fileID == fid

/-- Key predicate of the vibe-drop-chunks table. -/
def chunkKeyMatches (fid : String) (n : Int) (c : FileChunk) : Bool :=
  c.fileID == fid && c.chunkNumber == n

/-- GetFileMetadata (s3client.go 270-292): GetItem by fileID; a missing item
makes the Go function return an error ("file not found"), modelled as none. -/
def getFileMetadata (db : DynamoState) (fid : String) : Option FileMetadata :=
  db.files.find? (fileKeyMatches fid)

/-- SaveFileMetadata (s3client.go 249-267): PutItem with no
ConditionExpression — an unconditional write that replaces the item carrying
the same key if one exists and inserts the item otherwise.  PutItem never
fails on a duplicate key. -/
def saveFileMetadata (db : DynamoState) (m : FileMetadata) : DynamoState :=
  if db.files.any (fileKeyMatches m.fileID) then
    { db with files := db.files.map (fun x => if fileKeyMatches m.fileID x then m else x) }
  else
    { db with files := db.files ++ [m] }

/-- DeleteFileMetadata (s3client.go 324-337): DeleteItem by fileID. -/
def deleteFileMetadata (db : DynamoState) (fid : String) : DynamoState :=
  { db with files := db.files.filter (fun x => !(fileKeyMatches fid x)) }

/-- Lookup of one chunk item by its full key. -/
def findChunk (db : DynamoState) (fid : String) (n : Int) : Option FileChunk :=
  db.chunks.find? (chunkKeyMatches fid n)

/-- SaveFileChunk (s3client.go 351-367): PutItem into vibe-drop-chunks. -/
def saveFileChunk (db : DynamoState) (c : FileChunk) : DynamoState :=
  if db.chunks.any (chunkKeyMatches c.fileID c.chunkNumber) then
    { db with chunks := db.chunks.map (fun x => if chunkKeyMatches c.fileID c.chunkNumber x then c else x) }
  else
    { db with chunks := db.chunks ++ [c] }

/-- GetFileChunks (s3client.go 370-394): Query by partition key fileID,
returning every chunk item of the file. -/
def getFileChunks (db : DynamoState) (fid : String) : List FileChunk :=
  db.chunks.filter (fun c => c.fileID == fid)

/-- Effect of the UpdateExpression of UpdateChunkStatus (s3client.go
398-411) on one chunk item: status is always set; etag and uploadedAt are
set exactly when the reported status is "uploaded" and the supplied etag is
nonempty.  No other attribute is touched. -/
def applyChunkUpdate (c : FileChunk) (status etag now : String) : FileChunk :=
  if status == "uploaded" && etag != "" then
    { c with status := status, etag := etag, uploadedAt := now }
  else
    { c with status := status }

/-- UpdateChunkStatus (s3client.go 397-429): UpdateItem on key
(fileID, chunkNumber) with no ConditionExpression.  Per DynamoDB semantics
UpdateItem is an upsert: when no item with the key exists it creates one
holding the key attributes plus the attributes set by the update expression;
the remaining attributes are absent and read back into Go zero values. -/
def updateChunkStatus (db : DynamoState) (fid : String) (n : Int) (status etag now : String) : DynamoState :=
  if db.chunks.any (chunkKeyMatches fid n) then
    { db with chunks := db.chunks.map (fun x => if chunkKeyMatches fid n x then applyChunkUpdate x status etag now else x) }
  else
    { db with chunks := db.chunks ++ [applyChunkUpdate { fileID := fid, chunkNumber := n, size := 0, etag := "", status := "", uploadedAt := "", s3PartNumber := 0 } status etag now] }

/-- CheckUploadComplete (s3client.go 432-446): fetch the file's chunks;
complete iff no chunk has a status other than "uploaded" and there is at
least one chunk. -/
def checkUploadComplete (db : DynamoState) (fid : String) : Bool × List FileChunk :=
  let chunks := getFileChunks db fid
  (chunks.all (fun c => c.status == "uploaded") && !chunks.isEmpty, chunks)

/-! ## Blob store (S3) collaborator -/

/-- State of the blob store as used by the coordinator: the open multipart
sessions (key, uploadID) and the stored object keys.  available models
whether calls reach the store (false makes every call fail, a transient
storage failure).  The one further behaviour load-bearing for the claims is
documented S3 semantics the spec itself records (section 4.4): completing a
multipart session that is no longer open — in particular one that was
already completed — is rejected with an error. -/
structure S3State where
  available : Bool
  sessions : List (String × String)
  objects : List String
deriving DecidableEq, Repr

/-- InitiateMultipartUpload (s3client.go 128-147): CreateMultipartUpload
opens a session for the key; the store-assigned uploadID is passed in as an
explicit argument. -/
def initiateMultipartUpload (s3 : S3State) (key uploadID : String) : Except String S3State :=
  if s3.available then
    .ok { s3 with sessions := s3.sessions ++ [(key, uploadID)] }
  else
    .error "failed to initiate multipart upload"

/-- CompleteMultipartUpload, the S3 call the handler makes at files.go 405:
merges the parts of an open session into an object under its key and closes
the session.  A call for a session that is not open (already completed or
aborted, or never created) is rejected.  The real store validates the parts
list; the model keeps it as an argument only. -/
def completeMultipartUploadS3 (s3 : S3State) (key uploadID : String) (_parts : List (Int × String)) : Except String S3State :=
  if !s3.available then
    .error "storage unavailable"
  else if (key, uploadID) ∈ s3.sessions then
    .ok { s3 with sessions := s3.sessions.filter (fun p => decide (p ≠ (key, uploadID))),
                  objects := s3.objects ++ [key] }
  else
    .error "NoSuchUpload"

/-- DeleteObject (s3client.go 108-119): S3 DeleteObject succeeds whether or
not the key exists, and fails when the store is unreachable. -/
def deleteObjectS3 (s3 : S3State) (key : String) : Except String S3State :=
  if s3.available then
    .ok { s3 with objects := s3.objects.filter (fun k => !(k == key)) }
  else
    .error "failed to delete S3 object"

/-! ## Handlers (files.go) -/

/-- Combined state of the two independently failable stores. -/
structure Sys where
  s3 : S3State
  db : DynamoState
deriving DecidableEq, Repr

/-- Error responses a handler can produce (http.Error classes used by
files.go: 404, 400, 500). -/
inductive HErr where
  | notFound (msg : String)
  | badRequest (msg : String)
  | internalError (msg : String)
deriving DecidableEq, Repr

deriving instance DecidableEq for Except

/-- ChunkURL response entry (files.go 23-28). -/
structure ChunkURL where
  chunkNumber : Int
  url : String
  expiresAt : String
  size : Int
deriving DecidableEq, Repr

/-- PresignedURLResponse (files.go 15-21).  Fields the Go code leaves at
their zero value (omitempty) are the empty string / empty list here. -/
structure PresignResp where
  url : String
  expiresAt : String
  fileID : String
  uploadType : String
  chunks : List ChunkURL
deriving DecidableEq, Repr

/-- Success payload of CompleteMultipartUploadHandler (files.go 418-423). -/
structure CompleteResp where
  fileId : String
  totalChunks : Nat
  completedAt : String
deriving DecidableEq, Repr

/-- Success payload of ChunkCompletionHandler (files.go 476-486). -/
structure ChunkResp where
  chunkNumber : Int
  status : String
  uploadComplete : Bool
deriving DecidableEq, Repr

/-- Success payload of DeleteFileHandler (files.go 340-343). -/
structure DeleteResp where
  message : String
  fileId : String
deriving DecidableEq, Repr

/-- Upload request body (files.go 44-47). -/
structure uploadRequest where
  filename : String
  size : Option Int
deriving DecidableEq, Repr

/-- parseUploadRequest (files.go 49-58).  body = none models a request body
that fails JSON decoding; the only field validation performed is that the
filename is nonempty.  The declared size is not inspected here. -/
def parseUploadRequest (body : Option uploadRequest) : Except String uploadRequest :=
  match body with
  | none => .error "invalid request body"
  | some req => if req.filename == "" then .error "filename is required" else .ok req

/-- Metadata record handleSingleUpload writes (files.go 174-188): status
uploading, uploadType single, key freshID-filename, declared size or 0 when
absent. -/
def singleUploadMetadata (req : uploadRequest) (freshID now : String) : FileMetadata :=
  { fileID := freshID, filename := req.filename,
    totalSize := req.size.getD 0,
    contentType := "application/octet-stream",
    status := "uploading", uploadType := "single",
    uploadedAt := now, userID := "default-user",
    s3Key := freshID ++ "-" ++ req.filename,
    s3UploadID := none, chunkSize := none, totalChunks := none,
    completedAt := none }

/-- handleSingleUpload (files.go 159-195).  GenerateUploadURL (s3client.go
68-87) draws the fresh fileID (a UUID, supplied to the model as freshID) and
presigns a PUT for key fileID-filename; presigning is local cryptographic
computation and contacts no store.  The metadata is written with
SaveFileMetadata; a write failure is only logged by the Go code (files.go
190-192), so the model's total store write matches the success response the
handler returns either way. -/
def handleSingleUpload (sys : Sys) (req : uploadRequest) (freshID now : String) : Except HErr PresignResp × Sys :=
  (.ok { url := "presigned-put:" ++ (freshID ++ "-" ++ req.filename), expiresAt := now,
         fileID := freshID, uploadType := "single", chunks := [] },
   { sys with db := saveFileMetadata sys.db (singleUploadMetadata req freshID now) })

/-- Chunk record created for 0-based index i by createChunksAndRecords
(files.go 124-134). -/
def chunkRecordAt (fid : String) (totalSize tc : Int) (i : Nat) : FileChunk :=
  { fileID := fid, chunkNumber := (i : Int) + 1,
    size := chunkSizeAt totalSize tc (i : Int),
    etag := "", status := "pending", uploadedAt := "",
    s3PartNumber := (i : Int) + 1 }

/-- Chunk URL entry created for 0-based index i by createChunksAndRecords
(files.go 117-122). -/
def chunkURLAt (key now : String) (totalSize tc : Int) (i : Nat) : ChunkURL :=
  { chunkNumber := (i : Int) + 1,
    url := "presigned-part:" ++ key ++ ":" ++ toString ((i : Int) + 1),
    expiresAt := now, size := chunkSizeAt totalSize tc (i : Int) }

/-- handleMultipartUpload (files.go 65-100) with createChunksAndRecords
(102-137) and saveMultipartMetadata (139-157).  InitiateMultipartUpload
draws the fresh UUID (freshID) and the store assigns uploadID.  The Go code
then re-derives fileID as the first 36 bytes of the S3 key after checking
the key is at least 37 bytes long.  make([]ChunkURL, totalChunks) panics for
a negative totalChunks (recovered into a 500 by the middleware), modelled as
an internal error; chunk-record and metadata write failures are only logged
(files.go 132-134, 95-97), so the model's total writes match the success
response. -/
def handleMultipartUpload (sys : Sys) (req : uploadRequest) (freshID uploadID now : String) : Except HErr PresignResp × Sys :=
  let key := freshID ++ "-" ++ req.filename
  match initiateMultipartUpload sys.s3 key uploadID with
  | .error e => (.error (.internalError ("failed to initiate multipart upload: " ++ e)), sys)
  | .ok s3after =>
    if key.length < 37 then
      (.error (.internalError "invalid S3 key format"), { sys with s3 := s3after })
    else
      let fid := key.take 36
      let size := req.size.getD 0
      let tc := totalChunksGo size
      if tc < 0 then
        (.error (.internalError "panic: makeslice: len out of range"), { sys with s3 := s3after })
      else
        let idxs := List.range tc.toNat
        let chunkRows := idxs.map (chunkRecordAt fid size tc)
        let urls := idxs.map (chunkURLAt key now size tc)
        let db1 := chunkRows.foldl saveFileChunk sys.db
        let md : FileMetadata :=
          { fileID := fid, filename := req.filename, totalSize := size,
            contentType := "application/octet-stream",
            status := "uploading", uploadType := "multipart",
            uploadedAt := now, userID := "default-user", s3Key := key,
            s3UploadID := some uploadID, chunkSize := some chunkSizeConst,
            totalChunks := some tc, completedAt := none }
        (.ok { url := "", expiresAt := "", fileID := fid,
               uploadType := "multipart", chunks := urls },
         { s3 := s3after, db := saveFileMetadata db1 md })

/-- GenerateUploadURLHandler (files.go 197-221): parse and validate the
body, then dispatch on shouldUseMultipart. -/
def generateUploadURLHandler (sys : Sys) (body : Option uploadRequest) (freshID uploadID now : String) : Except HErr PresignResp × Sys :=
  match parseUploadRequest body with
  | .error e => (.error (.badRequest e), sys)
  | .ok req =>
    if shouldUseMultipart req.size then
      handleMultipartUpload sys req freshID uploadID now
    else
      handleSingleUpload sys req freshID now

/-- CompleteMultipartUploadHandler (files.go 360-429).  The Go handler can
also fail with a 500 when the chunk query itself errors; the model's store
reads are total, which drops only that branch.  A SaveFileMetadata failure
after the successful S3 completion is only logged (files.go 414-416). -/
def completeMultipartUploadHandler (sys : Sys) (fid now : String) : Except HErr CompleteResp × Sys :=
  match getFileMetadata sys.db fid with
  | none => (.error (.notFound "File not found"), sys)
  | some md =>
    if md.uploadType != "multipart" || md.s3UploadID.isNone then
      (.error (.badRequest "Not a multipart upload"), sys)
    else if !(checkUploadComplete sys.db fid).1 then
      (.error (.badRequest "Not all chunks are uploaded yet"), sys)
    else
      match completeMultipartUploadS3 sys.s3 md.s3Key (md.s3UploadID.getD "")
          ((checkUploadComplete sys.db fid).2.map (fun c => (c.s3PartNumber, c.etag))) with
      | .error _ => (.error (.internalError "Failed to complete upload"), sys)
      | .ok s3after =>
        (.ok { fileId := fid, totalChunks := (checkUploadComplete sys.db fid).2.length,
               completedAt := now },
         { s3 := s3after,
           db := saveFileMetadata sys.db { md with status := "completed", completedAt := some now } })

/-- DeleteFileHandler (files.go 314-349): look up the metadata, delete the
S3 object first, and delete the metadata row only after that succeeded.  A
DeleteFileMetadata failure after the successful S3 deletion yields a 500 in
Go; the model's store delete is total, which drops only that branch. -/
def deleteFileHandler (sys : Sys) (fid : String) : Except HErr DeleteResp × Sys :=
  match getFileMetadata sys.db fid with
  | none => (.error (.notFound "File not found"), sys)
  | some md =>
    match deleteObjectS3 sys.s3 md.s3Key with
    | .error _ => (.error (.internalError "Failed to delete file from storage"), sys)
    | .ok s3after =>
      (.ok { message := "File deleted successfully", fileId := fid },
       { s3 := s3after, db := deleteFileMetadata sys.db fid })

/-- ChunkCompletionHandler (files.go 432-492).  An unparsable chunk number
or body yields a 400 before any store access; the model takes the parsed
values as arguments.  After validating the status string the handler updates
the chunk and re-derives completion; it never touches the files table. -/
def chunkCompletionHandler (db : DynamoState) (fid : String) (n : Int) (status etag now : String) : Except HErr ChunkResp × DynamoState :=
  if status != "uploaded" && status != "failed" then
    (.error (.badRequest "Status must be uploaded or failed"), db)
  else
    let db2 := updateChunkStatus db fid n status etag now
    let res := checkUploadComplete db2 fid
    (.ok { chunkNumber := n, status := status, uploadComplete := res.1 }, db2)

/-! ## Concrete states used by witnesses and counterexamples -/

/-- Empty metadata store. -/
def dbEmpty : DynamoState := { files := [], chunks := [] }

/-- Blob store with one open multipart session for key "f-a.bin". -/
def s3Open : S3State := { available := true, sessions := [("f-a.bin", "u")], objects := [] }

/-- Unreachable blob store. -/
def s3Down : S3State := { available := false, sessions := [("f-a.bin", "u")], objects := [] }

/-- Metadata record of an in-progress three-chunk multipart upload. -/
def mdMulti : FileMetadata :=
  { fileID := "f", filename := "a.bin", totalSize := 12884901888,
    contentType := "application/octet-stream", status := "uploading",
    uploadType := "multipart", uploadedAt := "t0", userID := "default-user",
    s3Key := "f-a.bin", s3UploadID := some "u",
    chunkSize := some chunkSizeConst, totalChunks := some 3,
    completedAt := none }

/-- An uploaded chunk record of mdMulti. -/
def chUp (n : Int) : FileChunk :=
  { fileID := "f", chunkNumber := n, size := 1, etag := "e", status := "uploaded",
    uploadedAt := "t0", s3PartNumber := n }

/-- System with mdMulti fully uploaded and its session still open. -/
def sysA : Sys := { s3 := s3Open, db := { files := [mdMulti], chunks := [chUp 1, chUp 2, chUp 3] } }

/-- The same system with the blob store unreachable. -/
def sysB : Sys := { s3 := s3Down, db := sysA.db }

/-- System state after the first successful finalize of sysA. -/
def sysA1 : Sys := (completeMultipartUploadHandler sysA "f" "t1").2

/-- Two metadata records sharing the key "f". -/
def mdX : FileMetadata :=
  { fileID := "f", filename := "a", totalSize := 1,
    contentType := "application/octet-stream", status := "uploading",
    uploadType := "single", uploadedAt := "t0", userID := "default-user",
    s3Key := "f-a", s3UploadID := none, chunkSize := none, totalChunks := none,
    completedAt := none }

/-- Second record under key "f", differing from mdX in the filename. -/
def mdY : FileMetadata := { mdX with filename := "b", s3Key := "f-b" }

/-- System with an available blob store and empty tables. -/
def sysE : Sys := { s3 := { available := true, sessions := [], objects := [] }, db := dbEmpty }

/-- An upload request with a valid filename and a negative declared size. -/
def reqNeg : uploadRequest := { filename := "a.txt", size := some (-1) }

/-! ## Helper lemmas -/

theorem find?_map_update {α : Type} (p : α → Bool) (f : α → α)
    (hf : ∀ x, p x = true → p (f x) = true) (l : List α) (c : α)
    (h : l.find? p = some c) :
    (l.map (fun x => if p x then f x else x)).find? p = some (f c) := by
  induction l with
  | nil => simp at h
  | cons a t ih =>
    by_cases hpa : p a = true
    · rw [List.find?_cons_of_pos _ hpa] at h
      injection h with h2
      subst h2
      simp only [List.map_cons, if_pos hpa]
      exact List.find?_cons_of_pos _ (hf _ hpa)
    · rw [List.find?_cons_of_neg _ hpa] at h
      simp only [List.map_cons, if_neg hpa]
      rw [List.find?_cons_of_neg _ hpa]
      exact ih h

theorem find?_map_put {α : Type} (p : α → Bool) (m : α) (hm : p m = true)
    (l : List α) (h : l.any p = true) :
    (l.map (fun x => if p x then m else x)).find? p = some m := by
  induction l with
  | nil => simp at h
  | cons a t ih =>
    by_cases hpa : p a = true
    · simp only [List.map_cons, if_pos hpa]
      exact List.find?_cons_of_pos _ hm
    · simp only [List.any_cons, Bool.or_eq_true] at h
      rcases h with h | h
      · exact absurd h hpa
      · simp only [List.map_cons, if_neg hpa]
        rw [List.find?_cons_of_neg _ hpa]
        exact ih h

theorem find?_append_none {α : Type} (p : α → Bool) (l1 l2 : List α)
    (h : l1.find? p = none) :
    (l1 ++ l2).find? p = l2.find? p := by
  induction l1 with
  | nil => simp
  | cons a t ih =>
    by_cases hpa : p a = true
    · rw [List.find?_cons_of_pos _ hpa] at h
      cases h
    · rw [List.find?_cons_of_neg _ hpa] at h
      rw [List.cons_append, List.find?_cons_of_neg _ hpa]
      exact ih h

theorem any_eq_false_of_find?_eq_none {α : Type} (p : α → Bool) (l : List α)
    (h : l.find? p = none) : l.any p = false := by
  rw [List.find?_eq_none] at h
  rw [Bool.eq_false_iff]
  intro hany
  rcases List.any_eq_true.mp hany with ⟨x, hx, hpx⟩
  exact h x hx hpx

theorem applyChunkUpdate_fileID (c : FileChunk) (s e t : String) :
    (applyChunkUpdate c s e t).fileID = c.fileID := by
  unfold applyChunkUpdate; split <;> rfl

theorem applyChunkUpdate_chunkNumber (c : FileChunk) (s e t : String) :
    (applyChunkUpdate c s e t).chunkNumber = c.chunkNumber := by
  unfold applyChunkUpdate; split <;> rfl

theorem applyChunkUpdate_size (c : FileChunk) (s e t : String) :
    (applyChunkUpdate c s e t).size = c.size := by
  unfold applyChunkUpdate; split <;> rfl

theorem applyChunkUpdate_s3PartNumber (c : FileChunk) (s e t : String) :
    (applyChunkUpdate c s e t).s3PartNumber = c.s3PartNumber := by
  unfold applyChunkUpdate; split <;> rfl

theorem applyChunkUpdate_status (c : FileChunk) (s e t : String) :
    (applyChunkUpdate c s e t).status = s := by
  unfold applyChunkUpdate; split <;> rfl

theorem applyChunkUpdate_key (fid : String) (n : Int) (c : FileChunk) (s e t : String) :
    chunkKeyMatches fid n (applyChunkUpdate c s e t) = chunkKeyMatches fid n c := by
  unfold chunkKeyMatches
  rw [applyChunkUpdate_fileID, applyChunkUpdate_chunkNumber]

theorem applyChunkUpdate_etag_pos (c : FileChunk) (s e t : String)
    (h : s = "uploaded" ∧ e ≠ "") :
    (applyChunkUpdate c s e t).etag = e ∧ (applyChunkUpdate c s e t).uploadedAt = t := by
  unfold applyChunkUpdate
  rw [if_pos]
  · exact ⟨rfl, rfl⟩
  · simp [h.1, h.2]

theorem applyChunkUpdate_etag_neg (c : FileChunk) (s e t : String)
    (h : ¬(s = "uploaded" ∧ e ≠ "")) :
    (applyChunkUpdate c s e t).etag = c.etag ∧ (applyChunkUpdate c s e t).uploadedAt = c.uploadedAt := by
  unfold applyChunkUpdate
  rw [if_neg]
  · exact ⟨rfl, rfl⟩
  · simp only [Bool.and_eq_true, beq_iff_eq, bne_iff_ne, ne_eq, not_and]
    intro hs he
    exact h ⟨hs, he⟩

theorem saveFileMetadata_chunks (db : DynamoState) (m : FileMetadata) :
    (saveFileMetadata db m).chunks = db.chunks := by
  unfold saveFileMetadata; split <;> rfl

theorem updateChunkStatus_files (db : DynamoState) (fid : String) (n : Int) (s e t : String) :
    (updateChunkStatus db fid n s e t).files = db.files := by
  unfold updateChunkStatus; split <;> rfl

theorem deleteFileMetadata_chunks (db : DynamoState) (fid : String) :
    (deleteFileMetadata db fid).chunks = db.chunks := rfl

theorem getFileMetadata_save_self (db : DynamoState) (m : FileMetadata) :
    getFileMetadata (saveFileMetadata db m) m.fileID = some m := by
  unfold getFileMetadata saveFileMetadata
  have hm : fileKeyMatches m.fileID m = true := by
    unfold fileKeyMatches; exact beq_self_eq_true _
  by_cases h : db.files.any (fileKeyMatches m.fileID) = true
  · rw [if_pos h]
    exact find?_map_put _ m hm db.files h
  · rw [if_neg h]
    have hnone : db.files.find? (fileKeyMatches m.fileID) = none := by
      cases hf : db.files.find? (fileKeyMatches m.fileID) with
      | none => rfl
      | some x =>
        exact absurd (List.any_eq_true.mpr ⟨x, List.mem_of_find?_eq_some hf, List.find?_some hf⟩) h
    rw [find?_append_none _ _ _ hnone]
    rw [List.find?_cons_of_pos _ hm]

theorem checkUploadComplete_congr (db1 db2 : DynamoState) (fid : String)
    (h : db1.chunks = db2.chunks) :
    checkUploadComplete db1 fid = checkUploadComplete db2 fid := by
  unfold checkUploadComplete getFileChunks
  rw [h]

theorem getFileMetadata_fileID (db : DynamoState) (fid : String) (md : FileMetadata)
    (h : getFileMetadata db fid = some md) : md.fileID = fid := by
  unfold getFileMetadata at h
  have hk := List.find?_some h
  unfold fileKeyMatches at hk
  exact beq_iff_eq.mp hk

theorem checkUploadComplete_fst_eq_true_iff (db : DynamoState) (fid : String) :
    (checkUploadComplete db fid).1 = true ↔
      getFileChunks db fid ≠ [] ∧ ∀ c ∈ getFileChunks db fid, c.status = "uploaded" := by
  show ((getFileChunks db fid).all (fun c => c.status == "uploaded") &&
      !(getFileChunks db fid).isEmpty) = true ↔ _
  constructor
  · intro h
    obtain ⟨hall, hne⟩ := Bool.and_eq_true_iff.mp h
    constructor
    · intro hnil
      rw [hnil] at hne
      simp at hne
    · intro c hc
      exact beq_iff_eq.mp (List.all_eq_true.mp hall c hc)
  · rintro ⟨hne, hall⟩
    apply Bool.and_eq_true_iff.mpr
    constructor
    · exact List.all_eq_true.mpr (fun c hc => beq_iff_eq.mpr (hall c hc))
    · simpa using hne

theorem checkUploadComplete_fst_false_of_mem (db : DynamoState) (fid : String) (c : FileChunk)
    (hc : c ∈ getFileChunks db fid) (hs : c.status ≠ "uploaded") :
    (checkUploadComplete db fid).1 = false := by
  show ((getFileChunks db fid).all (fun c => c.status == "uploaded") &&
      !(getFileChunks db fid).isEmpty) = false
  have hall : (getFileChunks db fid).all (fun c => c.status == "uploaded") = false := by
    rw [Bool.eq_false_iff]
    intro hallt
    exact hs (beq_iff_eq.mp (List.all_eq_true.mp hallt c hc))
  rw [hall, Bool.false_and]

theorem exists_failed_after_failed_report (db : DynamoState) (fid : String) (n : Int)
    (etag now : String) :
    ∃ c ∈ getFileChunks (updateChunkStatus db fid n "failed" etag now) fid,
      c.status = "failed" := by
  unfold updateChunkStatus
  by_cases h : db.chunks.any (chunkKeyMatches fid n) = true
  · rw [if_pos h]
    obtain ⟨a, ha, hka⟩ := List.any_eq_true.mp h
    refine ⟨applyChunkUpdate a "failed" etag now, ?_, applyChunkUpdate_status a "failed" etag now⟩
    unfold getFileChunks
    apply List.mem_filter.mpr
    constructor
    · have hmem := List.mem_map_of_mem
        (fun x => if chunkKeyMatches fid n x then applyChunkUpdate x "failed" etag now else x) ha
      simpa [hka] using hmem
    · rw [applyChunkUpdate_fileID]
      unfold chunkKeyMatches at hka
      exact (Bool.and_eq_true_iff.mp hka).1
  · rw [if_neg h]
    refine ⟨applyChunkUpdate ⟨fid, n, 0, "", "", "", 0⟩ "failed" etag now, ?_,
      applyChunkUpdate_status _ _ _ _⟩
    unfold getFileChunks
    apply List.mem_filter.mpr
    constructor
    · exact List.mem_append_right _ (List.mem_singleton_self _)
    · rw [applyChunkUpdate_fileID]
      simp

theorem wrap64_eq_self (x : Int) (h1 : -pow63 ≤ x) (h2 : x < pow63) : wrap64 x = x := by
  unfold wrap64 pow63 pow64 at *
  omega

theorem wrap64_emod (a : Int) : wrap64 a % pow64 = a % pow64 := by
  unfold wrap64
  rw [Int.sub_emod, Int.emod_emod_of_dvd _ dvd_rfl, ← Int.sub_emod, add_sub_cancel_right]

theorem wrap64_congr (a b : Int) (h : a % pow64 = b % pow64) : wrap64 a = wrap64 b := by
  unfold wrap64
  have h2 : (a + pow63) % pow64 = (b + pow63) % pow64 := by
    rw [Int.add_emod, h, ← Int.add_emod]
  rw [h2]

theorem wadd_then_wsub (a b c : Int) : wsub (wadd a b) c = wrap64 (a + b - c) := by
  unfold wsub wadd
  apply wrap64_congr
  rw [Int.sub_emod, wrap64_emod, ← Int.sub_emod]

/-! ## Claim theorems -/

/-- C1 (amended): the planner claim holds for every declared size for which
the int64 ceiling computation does not overflow, i.e. s ≤ 2^63 - chunkSize.
An absent or below-threshold size selects single; a size at or above the
5 GiB threshold selects multipart, totalChunks is the ceiling of
s / chunkSize (characterized by (tc-1)*chunkSize < s ≤ tc*chunkSize with
tc ≥ 1), every chunk except the last has expectedSize chunkSize, and the
last chunk has size s - (tc-1)*chunkSize with 0 < lastSize ≤ chunkSize.
Beyond that bound the computation wraps around (see the counterexample). -/
theorem c1_plan_math (s : Int)
    (hlo : multipartThreshold ≤ s) (hhi : s ≤ pow63 - chunkSizeConst) :
    shouldUseMultipart (some s) = true ∧
    shouldUseMultipart none = false ∧
    (∀ s2 : Int, s2 < multipartThreshold → shouldUseMultipart (some s2) = false) ∧
    1 ≤ totalChunksGo s ∧
    (totalChunksGo s - 1) * chunkSizeConst < s ∧
    s ≤ totalChunksGo s * chunkSizeConst ∧
    (∀ i : Int, 0 ≤ i → i < totalChunksGo s - 1 →
      chunkSizeAt s (totalChunksGo s) i = chunkSizeConst) ∧
    chunkSizeAt s (totalChunksGo s) (totalChunksGo s - 1) =
      s - (totalChunksGo s - 1) * chunkSizeConst ∧
    0 < s - (totalChunksGo s - 1) * chunkSizeConst ∧
    s - (totalChunksGo s - 1) * chunkSizeConst ≤ chunkSizeConst := by
  have hsum : wsub (wadd s chunkSizeConst) 1 = s + chunkSizeConst - 1 := by
    rw [wadd_then_wsub]
    apply wrap64_eq_self
    · unfold pow63 multipartThreshold chunkSizeConst at *
      omega
    · unfold pow63 multipartThreshold chunkSizeConst at *
      omega
  have htot : totalChunksGo s = (s + chunkSizeConst - 1) / chunkSizeConst := by
    unfold totalChunksGo
    rw [hsum]
    apply Int.tdiv_eq_ediv
    · unfold multipartThreshold chunkSizeConst at *
      omega
    · unfold chunkSizeConst
      omega
  have h1 : 1 ≤ totalChunksGo s := by
    rw [htot]
    unfold multipartThreshold chunkSizeConst at *
    omega
  have hlow : (totalChunksGo s - 1) * chunkSizeConst < s := by
    rw [htot]
    unfold multipartThreshold chunkSizeConst at *
    omega
  have hhigh : s ≤ totalChunksGo s * chunkSizeConst := by
    rw [htot]
    unfold multipartThreshold chunkSizeConst at *
    omega
  have hspow : s < pow63 := by
    unfold pow63 chunkSizeConst at *
    omega
  refine ⟨?_, rfl, ?_, h1, hlow, hhigh, ?_, ?_, ?_, ?_⟩
  · unfold shouldUseMultipart
    simp [hlo]
  · intro s2 hs2
    unfold shouldUseMultipart
    simp only [decide_eq_false_iff_not]
    omega
  · intro i h0 hi
    unfold chunkSizeAt
    rw [if_neg]
    omega
  · unfold chunkSizeAt
    rw [if_pos rfl]
    have hw : wmul (totalChunksGo s - 1) chunkSizeConst =
        (totalChunksGo s - 1) * chunkSizeConst := by
      unfold wmul
      apply wrap64_eq_self
      · have hnn : 0 ≤ (totalChunksGo s - 1) * chunkSizeConst := by
          apply mul_nonneg
          · omega
          · unfold chunkSizeConst
            omega
        unfold pow63 at *
        omega
      · exact lt_trans hlow hspow
    rw [hw]
    unfold wsub
    apply wrap64_eq_self
    · unfold pow63 at *
      omega
    · have hle : s - (totalChunksGo s - 1) * chunkSizeConst ≤ chunkSizeConst := by
        have hexp : totalChunksGo s * chunkSizeConst =
            (totalChunksGo s - 1) * chunkSizeConst + chunkSizeConst := by ring
        omega
      have hcp : chunkSizeConst < pow63 := by
        unfold chunkSizeConst pow63
        omega
      omega
  · omega
  · have hexp : totalChunksGo s * chunkSizeConst =
        (totalChunksGo s - 1) * chunkSizeConst + chunkSizeConst := by ring
    omega

/-- C1 counterexample to the claim as stated: at declared size 2^63 - 1
(a value int64 admits and nothing validates away) shouldUseMultipart still
selects multipart, but the int64 computation of totalChunks overflows and
yields a negative count instead of the ceiling (the run then panics in
make([]ChunkURL, totalChunks)); in particular the ceiling upper bound
s ≤ totalChunks * chunkSize fails. -/
theorem c1_counterexample :
    shouldUseMultipart (some (pow63 - 1)) = true ∧
    totalChunksGo (pow63 - 1) = -1717986917 ∧
    ¬(pow63 - 1 ≤ totalChunksGo (pow63 - 1) * chunkSizeConst) := by
  refine ⟨by decide, by decide, by decide⟩

/-- C1 witness: the amended theorem applied to the spec's 12 GiB scenario
(totalChunks 3, chunk sizes 5 GiB, 5 GiB, 2 GiB). -/
theorem c1_witness :
    (multipartThreshold ≤ 12884901888 ∧ (12884901888 : Int) ≤ pow63 - chunkSizeConst) ∧
    (shouldUseMultipart (some 12884901888) = true ∧
    shouldUseMultipart none = false ∧
    (∀ s2 : Int, s2 < multipartThreshold → shouldUseMultipart (some s2) = false) ∧
    1 ≤ totalChunksGo 12884901888 ∧
    (totalChunksGo 12884901888 - 1) * chunkSizeConst < 12884901888 ∧
    (12884901888 : Int) ≤ totalChunksGo 12884901888 * chunkSizeConst ∧
    (∀ i : Int, 0 ≤ i → i < totalChunksGo 12884901888 - 1 →
      chunkSizeAt 12884901888 (totalChunksGo 12884901888) i = chunkSizeConst) ∧
    chunkSizeAt 12884901888 (totalChunksGo 12884901888) (totalChunksGo 12884901888 - 1) =
      12884901888 - (totalChunksGo 12884901888 - 1) * chunkSizeConst ∧
    0 < 12884901888 - (totalChunksGo 12884901888 - 1) * chunkSizeConst ∧
    12884901888 - (totalChunksGo 12884901888 - 1) * chunkSizeConst ≤ chunkSizeConst) :=
  ⟨⟨by decide, by decide⟩, c1_plan_math 12884901888 (by decide) (by decide)⟩

/-- C2: checkComplete(fileID) is true iff there is at least one FileChunk row
for the file and every row has status "uploaded"; and after any chunk of the
file is reported failed — whatever the chunk's earlier status, including
"uploaded" — checkComplete is false (the last report wins). -/
theorem c2_checkComplete_iff_all_uploaded (db : DynamoState) (fid : String) :
    ((checkUploadComplete db fid).1 = true ↔
      getFileChunks db fid ≠ [] ∧ ∀ c ∈ getFileChunks db fid, c.status = "uploaded") ∧
    (∀ n etag now, (checkUploadComplete (updateChunkStatus db fid n "failed" etag now) fid).1 = false) := by
  refine ⟨checkUploadComplete_fst_eq_true_iff db fid, fun n etag now => ?_⟩
  obtain ⟨c, hc, hst⟩ := exists_failed_after_failed_report db fid n etag now
  refine checkUploadComplete_fst_false_of_mem _ _ c hc ?_
  rw [hst]
  decide

/-- C6 (amended): reporting a chunk outcome for a (fileID, chunkNumber) pair
with no existing FileChunk row does not fail with NotFound.  UpdateItem
upserts: the call succeeds and creates a new row holding the key, the
reported status, and — for an uploaded report with a nonempty checksum — the
etag and uploadedAt; the handler returns 200. -/
theorem c6_report_unknown_chunk_upserts (db : DynamoState) (fid : String) (n : Int)
    (status etag now : String) (hnone : findChunk db fid n = none)
    (hvalid : status = "uploaded" ∨ status = "failed") :
    (chunkCompletionHandler db fid n status etag now).1 =
      .ok { chunkNumber := n, status := status,
            uploadComplete := (checkUploadComplete (updateChunkStatus db fid n status etag now) fid).1 } ∧
    findChunk ((chunkCompletionHandler db fid n status etag now).2) fid n =
      some (applyChunkUpdate ⟨fid, n, 0, "", "", "", 0⟩ status etag now) := by
  have hcond : (status != "uploaded" && status != "failed") = false := by
    rcases hvalid with h | h <;> rw [h] <;> decide
  have hany : db.chunks.any (chunkKeyMatches fid n) = false := by
    apply any_eq_false_of_find?_eq_none
    unfold findChunk at hnone
    exact hnone
  constructor
  · unfold chunkCompletionHandler
    rw [hcond]
    simp
  · unfold chunkCompletionHandler
    rw [hcond]
    simp only [Bool.false_eq_true, if_false]
    show (updateChunkStatus db fid n status etag now).chunks.find? (chunkKeyMatches fid n) = _
    unfold updateChunkStatus
    rw [if_neg (by rw [hany]; exact Bool.false_ne_true)]
    have hfnone : db.chunks.find? (chunkKeyMatches fid n) = none := hnone
    rw [find?_append_none _ _ _ hfnone]
    apply List.find?_cons_of_pos
    rw [applyChunkUpdate_key]
    unfold chunkKeyMatches
    simp

/-- C6 counterexample: on an empty chunks table, reporting chunk 1 of file
"f" as uploaded does not fail with NotFound: the handler answers 200 (and
even reports the upload complete, the phantom row being the only chunk of
the file), and a FileChunk row for ("f", 1) now exists. -/
theorem c6_counterexample :
    (chunkCompletionHandler dbEmpty "f" 1 "uploaded" "e1" "t1").1 =
      .ok { chunkNumber := 1, status := "uploaded", uploadComplete := true } ∧
    findChunk ((chunkCompletionHandler dbEmpty "f" 1 "uploaded" "e1" "t1").2) "f" 1 =
      some { fileID := "f", chunkNumber := 1, size := 0, etag := "e1",
             status := "uploaded", uploadedAt := "t1", s3PartNumber := 0 } := by
  decide

/-- C6 witness: the amended theorem applied to the empty table. -/
theorem c6_witness :
    findChunk dbEmpty "g" 2 = none ∧
    ((chunkCompletionHandler dbEmpty "g" 2 "failed" "" "t2").1 =
      .ok { chunkNumber := 2, status := "failed",
            uploadComplete := (checkUploadComplete (updateChunkStatus dbEmpty "g" 2 "failed" "" "t2") "g").1 } ∧
    findChunk ((chunkCompletionHandler dbEmpty "g" 2 "failed" "" "t2").2) "g" 2 =
      some (applyChunkUpdate ⟨"g", 2, 0, "", "", "", 0⟩ "failed" "" "t2")) :=
  ⟨rfl, c6_report_unknown_chunk_upserts dbEmpty "g" 2 "failed" "" "t2" rfl (Or.inr rfl)⟩

/-- C7 (amended): initial metadata creation is not conditional.
SaveFileMetadata issues a DynamoDB PutItem with no ConditionExpression, an
unconditional write: for every prior table state — in particular one already
holding a record under the same fileID — the write succeeds and the stored
record afterwards is the new one (the existing record is overwritten). -/
theorem c7_saveFileMetadata_overwrites (db : DynamoState) (m : FileMetadata) :
    getFileMetadata (saveFileMetadata db m) m.fileID = some m :=
  getFileMetadata_save_self db m

/-- C7 counterexample: writing mdY while mdX already occupies key "f"
does not fail on the duplicate key; it replaces mdX with mdY. -/
theorem c7_counterexample :
    getFileMetadata (saveFileMetadata (saveFileMetadata dbEmpty mdX) mdY) "f" = some mdY ∧
    mdX ≠ mdY := by
  decide

/-- C9: a chunk report never modifies the FileMetadata table: the files
table after ChunkCompletionHandler is exactly the one before (so status and
completedAt of every record are untouched); finalization only happens in the
separate CompleteMultipartUploadHandler. -/
theorem c9_chunk_report_preserves_metadata (db : DynamoState) (fid repFid : String) (n : Int)
    (status etag now : String) :
    ((chunkCompletionHandler db repFid n status etag now).2).files = db.files ∧
    getFileMetadata ((chunkCompletionHandler db repFid n status etag now).2) fid =
      getFileMetadata db fid := by
  have hf : ((chunkCompletionHandler db repFid n status etag now).2).files = db.files := by
    unfold chunkCompletionHandler
    split
    · rfl
    · exact updateChunkStatus_files db repFid n status etag now
  refine ⟨hf, ?_⟩
  unfold getFileMetadata
  rw [hf]

/-- C10: UpdateChunkStatus always overwrites the status; it writes etag and
uploadedAt exactly when the report is "uploaded" with a nonempty checksum; a
failed report — and an uploaded report with an empty checksum — leaves the
stored etag and uploadedAt (and every other field) unchanged. -/
theorem c10_update_writes_only_expected_fields (db : DynamoState) (fid : String) (n : Int)
    (status etag now : String) (c : FileChunk) (h : findChunk db fid n = some c) :
    ∃ c', findChunk (updateChunkStatus db fid n status etag now) fid n = some c' ∧
      c'.status = status ∧ c'.size = c.size ∧ c'.s3PartNumber = c.s3PartNumber ∧
      c'.fileID = c.fileID ∧ c'.chunkNumber = c.chunkNumber ∧
      (status = "uploaded" ∧ etag ≠ "" → c'.etag = etag ∧ c'.uploadedAt = now) ∧
      (¬(status = "uploaded" ∧ etag ≠ "") → c'.etag = c.etag ∧ c'.uploadedAt = c.uploadedAt) := by
  unfold findChunk at h
  have hany : db.chunks.any (chunkKeyMatches fid n) = true :=
    List.any_eq_true.mpr ⟨c, List.mem_of_find?_eq_some h, List.find?_some h⟩
  refine ⟨applyChunkUpdate c status etag now, ?_,
    applyChunkUpdate_status c status etag now,
    applyChunkUpdate_size c status etag now,
    applyChunkUpdate_s3PartNumber c status etag now,
    applyChunkUpdate_fileID c status etag now,
    applyChunkUpdate_chunkNumber c status etag now,
    fun hp => applyChunkUpdate_etag_pos c status etag now hp,
    fun hp => applyChunkUpdate_etag_neg c status etag now hp⟩
  unfold findChunk updateChunkStatus
  rw [if_pos hany]
  exact find?_map_update _ _ (fun x hx => by rw [applyChunkUpdate_key]; exact hx) db.chunks c h

/-- C3 (amended): finalize is not idempotent at the coordinator level.
After a successful finalize, a second finalize of the same file passes the
precondition checks again (the metadata is still multipart with its
storageUploadID, and the chunks are still all uploaded) and re-issues the
blob-store merge; the store rejects the double-merge of the closed session,
and the handler surfaces that rejection as a 500 error instead of treating
it as an already-complete outcome.  The metadata does remain completed from
the first call. -/
theorem c3_finalize_not_idempotent (sys : Sys) (fid t1 t2 : String) (md : FileMetadata)
    (uid : String)
    (hmd : getFileMetadata sys.db fid = some md)
    (hty : md.uploadType = "multipart")
    (huid : md.s3UploadID = some uid)
    (hcomp : (checkUploadComplete sys.db fid).1 = true)
    (hav : sys.s3.available = true)
    (hopen : (md.s3Key, uid) ∈ sys.s3.sessions) :
    ∃ r sys1,
      completeMultipartUploadHandler sys fid t1 = (.ok r, sys1) ∧
      completeMultipartUploadHandler sys1 fid t2 =
        (.error (.internalError "Failed to complete upload"), sys1) ∧
      getFileMetadata sys1.db fid =
        some { md with status := "completed", completedAt := some t1 } := by
  have hfid := getFileMetadata_fileID sys.db fid md hmd
  have hcond : (md.uploadType != "multipart" || md.s3UploadID.isNone) = false := by
    simp [hty, huid]
  have hs3 : completeMultipartUploadS3 sys.s3 md.s3Key (md.s3UploadID.getD "")
      ((checkUploadComplete sys.db fid).2.map (fun c => (c.s3PartNumber, c.etag))) =
      .ok { sys.s3 with
            sessions := sys.s3.sessions.filter (fun p => decide (p ≠ (md.s3Key, uid))),
            objects := sys.s3.objects ++ [md.s3Key] } := by
    unfold completeMultipartUploadS3
    rw [huid]
    simp [hav, hopen]
  have hmd1 : getFileMetadata
      (saveFileMetadata sys.db { md with status := "completed", completedAt := some t1 }) fid =
      some { md with status := "completed", completedAt := some t1 } := by
    have h2 : ({ md with status := "completed", completedAt := some t1 } : FileMetadata).fileID = fid := hfid
    rw [← h2]
    exact getFileMetadata_save_self sys.db _
  have hcc : checkUploadComplete
      (saveFileMetadata sys.db { md with status := "completed", completedAt := some t1 }) fid =
      checkUploadComplete sys.db fid :=
    checkUploadComplete_congr _ _ fid (saveFileMetadata_chunks sys.db _)
  refine ⟨{ fileId := fid, totalChunks := (checkUploadComplete sys.db fid).2.length,
            completedAt := t1 },
    { s3 := { sys.s3 with
              sessions := sys.s3.sessions.filter (fun p => decide (p ≠ (md.s3Key, uid))),
              objects := sys.s3.objects ++ [md.s3Key] },
      db := saveFileMetadata sys.db { md with status := "completed", completedAt := some t1 } },
    ?_, ?_, hmd1⟩
  · unfold completeMultipartUploadHandler
    rw [hmd]
    dsimp only
    rw [hcond]
    simp only [Bool.false_eq_true, if_false]
    rw [hcomp]
    simp only [Bool.not_true, Bool.false_eq_true, if_false]
    rw [hs3]
  · unfold completeMultipartUploadHandler
    dsimp only
    rw [hmd1]
    dsimp only
    rw [hcond]
    simp only [Bool.false_eq_true, if_false]
    rw [hcc, hcomp]
    simp only [Bool.not_true, Bool.false_eq_true, if_false]
    have hs3fail : completeMultipartUploadS3
        { sys.s3 with
          sessions := sys.s3.sessions.filter (fun p => decide (p ≠ (md.s3Key, uid))),
          objects := sys.s3.objects ++ [md.s3Key] }
        md.s3Key (md.s3UploadID.getD "")
        ((checkUploadComplete sys.db fid).2.map (fun c => (c.s3PartNumber, c.etag))) =
        .error "NoSuchUpload" := by
      unfold completeMultipartUploadS3
      rw [huid]
      simp [hav, List.mem_filter]
    rw [hs3fail]

/-- C3 counterexample to the claim as stated: on sysA (all three chunks
uploaded, session open) the first finalize succeeds, but the second call on
the resulting state returns an error rather than a no-error completed
outcome. -/
theorem c3_counterexample :
    (completeMultipartUploadHandler sysA "f" "t1").1 =
      .ok { fileId := "f", totalChunks := 3, completedAt := "t1" } ∧
    (completeMultipartUploadHandler sysA1 "f" "t2").1 =
      .error (.internalError "Failed to complete upload") := by
  decide

/-- C3 witness: the amended theorem applied to sysA. -/
theorem c3_witness :
    (getFileMetadata sysA.db "f" = some mdMulti ∧ mdMulti.uploadType = "multipart" ∧
      mdMulti.s3UploadID = some "u" ∧ (checkUploadComplete sysA.db "f").1 = true ∧
      sysA.s3.available = true ∧ (mdMulti.s3Key, "u") ∈ sysA.s3.sessions) ∧
    (∃ r sys1,
      completeMultipartUploadHandler sysA "f" "t1" = (.ok r, sys1) ∧
      completeMultipartUploadHandler sys1 "f" "t2" =
        (.error (.internalError "Failed to complete upload"), sys1) ∧
      getFileMetadata sys1.db "f" =
        some { mdMulti with status := "completed", completedAt := some "t1" }) :=
  ⟨⟨by decide, by decide, by decide, by decide, by decide, by decide⟩,
    c3_finalize_not_idempotent sysA "f" "t1" "t2" mdMulti "u"
      (by decide) (by decide) (by decide) (by decide) (by decide) (by decide)⟩

/-- C4: when the blob-store merge fails, the handler returns an error and
leaves the whole state — in particular the FileMetadata record, still
uploading with no completedAt — unchanged; the metadata write only happens
after a successful merge. -/
theorem c4_merge_failure_leaves_metadata (sys : Sys) (fid now : String) (md : FileMetadata)
    (e : String)
    (hmd : getFileMetadata sys.db fid = some md)
    (hty : md.uploadType = "multipart")
    (hsome : md.s3UploadID.isSome = true)
    (hcomp : (checkUploadComplete sys.db fid).1 = true)
    (hfail : completeMultipartUploadS3 sys.s3 md.s3Key (md.s3UploadID.getD "")
        ((checkUploadComplete sys.db fid).2.map (fun c => (c.s3PartNumber, c.etag))) = .error e)
    (hstatus : md.status = "uploading") (hca : md.completedAt = none) :
    completeMultipartUploadHandler sys fid now =
      (.error (.internalError "Failed to complete upload"), sys) ∧
    getFileMetadata ((completeMultipartUploadHandler sys fid now).2).db fid = some md ∧
    md.status = "uploading" ∧ md.completedAt = none := by
  obtain ⟨uid, huid⟩ := Option.isSome_iff_exists.mp hsome
  have hcond : (md.uploadType != "multipart" || md.s3UploadID.isNone) = false := by
    simp [hty, huid]
  have heq : completeMultipartUploadHandler sys fid now =
      (.error (.internalError "Failed to complete upload"), sys) := by
    unfold completeMultipartUploadHandler
    rw [hmd]
    dsimp only
    rw [hcond]
    simp only [Bool.false_eq_true, if_false]
    rw [hcomp]
    simp only [Bool.not_true, Bool.false_eq_true, if_false]
    rw [hfail]
  refine ⟨heq, ?_, hstatus, hca⟩
  rw [heq]
  exact hmd

/-- C4 witness: the theorem applied to sysB, where the blob store is down
and the merge call therefore fails. -/
theorem c4_witness :
    (getFileMetadata sysB.db "f" = some mdMulti ∧ mdMulti.uploadType = "multipart" ∧
      mdMulti.s3UploadID.isSome = true ∧ (checkUploadComplete sysB.db "f").1 = true ∧
      completeMultipartUploadS3 sysB.s3 mdMulti.s3Key (mdMulti.s3UploadID.getD "")
        ((checkUploadComplete sysB.db "f").2.map (fun c => (c.s3PartNumber, c.etag))) =
          .error "storage unavailable" ∧
      mdMulti.status = "uploading" ∧ mdMulti.completedAt = none) ∧
    (completeMultipartUploadHandler sysB "f" "t1" =
      (.error (.internalError "Failed to complete upload"), sysB) ∧
    getFileMetadata ((completeMultipartUploadHandler sysB "f" "t1").2).db "f" = some mdMulti ∧
    mdMulti.status = "uploading" ∧ mdMulti.completedAt = none) :=
  ⟨⟨by decide, by decide, by decide, by decide, by decide, by decide, by decide⟩,
    c4_merge_failure_leaves_metadata sysB "f" "t1" mdMulti "storage unavailable"
      (by decide) (by decide) (by decide) (by decide) (by decide) (by decide) (by decide)⟩

/-- C5: deletion is ordered blob store first.  If the S3 object deletion
fails, the handler reports failure and the state is unchanged, so the
metadata lookup still returns the original record; the metadata row is
deleted exactly when the object deletion succeeded. -/
theorem c5_delete_blob_first (sys : Sys) (fid : String) (md : FileMetadata)
    (hmd : getFileMetadata sys.db fid = some md) :
    (∀ e, deleteObjectS3 sys.s3 md.s3Key = .error e →
      deleteFileHandler sys fid = (.error (.internalError "Failed to delete file from storage"), sys) ∧
      getFileMetadata ((deleteFileHandler sys fid).2).db fid = some md) ∧
    (∀ s3new, deleteObjectS3 sys.s3 md.s3Key = .ok s3new →
      deleteFileHandler sys fid =
        (.ok { message := "File deleted successfully", fileId := fid },
         { s3 := s3new, db := deleteFileMetadata sys.db fid })) := by
  constructor
  · intro e herr
    have heq : deleteFileHandler sys fid =
        (.error (.internalError "Failed to delete file from storage"), sys) := by
      unfold deleteFileHandler
      rw [hmd]
      dsimp only
      rw [herr]
    refine ⟨heq, ?_⟩
    rw [heq]
    exact hmd
  · intro s3new hok
    unfold deleteFileHandler
    rw [hmd]
    dsimp only
    rw [hok]

/-- C5 witness: the theorem applied to sysB (store down, deletion fails). -/
theorem c5_witness :
    getFileMetadata sysB.db "f" = some mdMulti ∧
    ((∀ e, deleteObjectS3 sysB.s3 mdMulti.s3Key = .error e →
      deleteFileHandler sysB "f" = (.error (.internalError "Failed to delete file from storage"), sysB) ∧
      getFileMetadata ((deleteFileHandler sysB "f").2).db "f" = some mdMulti) ∧
    (∀ s3new, deleteObjectS3 sysB.s3 mdMulti.s3Key = .ok s3new →
      deleteFileHandler sysB "f" =
        (.ok { message := "File deleted successfully", fileId := "f" },
         { s3 := s3new, db := deleteFileMetadata sysB.db "f" }))) :=
  ⟨by decide, c5_delete_blob_first sysB "f" mdMulti (by decide)⟩

/-- C8 (amended): only a missing filename (or an undecodable body) is
rejected before any store call, with the state unchanged.  A non-positive
declared size is not validated: the request falls below the multipart
threshold, is processed as a single upload, and both store interactions
happen — a presigned URL is issued and a metadata record with status
uploading is written. -/
theorem c8_only_filename_validated (sys : Sys) (body : Option uploadRequest)
    (freshID uploadID now : String) :
    (∀ e, parseUploadRequest body = .error e →
      generateUploadURLHandler sys body freshID uploadID now = (.error (.badRequest e), sys)) ∧
    (∀ req s, body = some req → req.filename ≠ "" → req.size = some s → s ≤ 0 →
      generateUploadURLHandler sys body freshID uploadID now =
        (.ok { url := "presigned-put:" ++ (freshID ++ "-" ++ req.filename), expiresAt := now,
               fileID := freshID, uploadType := "single", chunks := [] },
         { sys with db := saveFileMetadata sys.db (singleUploadMetadata req freshID now) }) ∧
      getFileMetadata (saveFileMetadata sys.db (singleUploadMetadata req freshID now)) freshID =
        some (singleUploadMetadata req freshID now)) := by
  constructor
  · intro e herr
    unfold generateUploadURLHandler
    rw [herr]
  · intro req s hbody hfn hsize hnonpos
    have hparse : parseUploadRequest body = .ok req := by
      unfold parseUploadRequest
      rw [hbody]
      dsimp only
      rw [if_neg]
      simp [hfn]
    have hmp : shouldUseMultipart req.size = false := by
      rw [hsize]
      unfold shouldUseMultipart
      simp only [decide_eq_false_iff_not]
      unfold multipartThreshold
      omega
    constructor
    · unfold generateUploadURLHandler
      rw [hparse]
      dsimp only
      rw [hmp]
      simp only [Bool.false_eq_true, if_false]
      rfl
    · have h2 : (singleUploadMetadata req freshID now).fileID = freshID := rfl
      rw [← h2]
      exact getFileMetadata_save_self sys.db _

/-- C8 counterexample to the claim as stated: a plan request with a valid
filename and declared size -1 is not rejected; it is served as a single
upload and a metadata record is created (store calls are made). -/
theorem c8_counterexample :
    (generateUploadURLHandler sysE (some reqNeg) "id1" "u1" "t1").1 =
      .ok { url := "presigned-put:id1-a.txt", expiresAt := "t1", fileID := "id1",
            uploadType := "single", chunks := [] } ∧
    getFileMetadata ((generateUploadURLHandler sysE (some reqNeg) "id1" "u1" "t1").2).db "id1" =
      some (singleUploadMetadata reqNeg "id1" "t1") := by
  decide

/-- C8 witness: the amended theorem applied to sysE with the size -1
request. -/
theorem c8_witness :
    ((parseUploadRequest (some reqNeg) = .error "x" → False) ∧ reqNeg.filename ≠ "" ∧
      reqNeg.size = some (-1) ∧ (-1 : Int) ≤ 0) ∧
    (generateUploadURLHandler sysE (some reqNeg) "id1" "u1" "t1" =
      (.ok { url := "presigned-put:" ++ ("id1" ++ "-" ++ reqNeg.filename), expiresAt := "t1",
             fileID := "id1", uploadType := "single", chunks := [] },
       { sysE with db := saveFileMetadata sysE.db (singleUploadMetadata reqNeg "id1" "t1") }) ∧
    getFileMetadata (saveFileMetadata sysE.db (singleUploadMetadata reqNeg "id1" "t1")) "id1" =
      some (singleUploadMetadata reqNeg "id1" "t1")) :=
  ⟨⟨by decide, by decide, by decide, by decide⟩,
    (c8_only_filename_validated sysE (some reqNeg) "id1" "u1" "t1").2 reqNeg (-1)
      rfl (by decide) rfl (by decide)⟩

/-- C10 witness: the theorem applied to the stored uploaded chunk ("f", 1)
of sysA with a failed report. -/
theorem c10_witness :
    findChunk sysA.db "f" 1 = some (chUp 1) ∧
    (∃ c', findChunk (updateChunkStatus sysA.db "f" 1 "failed" "" "t9") "f" 1 = some c' ∧
      c'.status = "failed" ∧ c'.size = (chUp 1).size ∧ c'.s3PartNumber = (chUp 1).s3PartNumber ∧
      c'.fileID = (chUp 1).fileID ∧ c'.chunkNumber = (chUp 1).chunkNumber ∧
      ("failed" = "uploaded" ∧ "" ≠ "" → c'.etag = "" ∧ c'.uploadedAt = "t9") ∧
      (¬("failed" = "uploaded" ∧ ("" : String) ≠ "") → c'.etag = (chUp 1).etag ∧ c'.uploadedAt = (chUp 1).uploadedAt)) :=
  ⟨by decide, c10_update_writes_only_expected_fields sysA.db "f" 1 "failed" "" "t9" (chUp 1) (by decide)⟩

end VibeDrop
